import Mathlib

/-!
Verification of the NSE stock analyzer (`src/main.py`).

The analyzer's reproducible core is modelled over exact rationals:
`calculate_position` (bounded position percentage), `get_stock_info`
(row assembly with fallback values), `analyze_stocks` (batch driver with
per-symbol error placeholders) and `create_visualizations` (chart export
stage, modelled up to its skip condition).  Python's `round(x, n)`
(round half to even at the n-th decimal) is modelled by `pyRound`.
-/

/-- Python-style rounding of a rational to the nearest integer, ties to
even (the behaviour of Python's builtin `round`). -/
def roundHalfEven (x : ℚ) : ℤ :=
  if x - ⌊x⌋ < 1/2 then ⌊x⌋
  else if 1/2 < x - ⌊x⌋ then ⌊x⌋ + 1
  else if ⌊x⌋ % 2 = 0 then ⌊x⌋ else ⌊x⌋ + 1

/-- Model of Python's `round(x, n)`: round half to even at the n-th
decimal place. -/
def pyRound (n : ℕ) (x : ℚ) : ℚ :=
  (roundHalfEven (x * 10 ^ n) : ℚ) / 10 ^ n

theorem floor_le_roundHalfEven (x : ℚ) : ⌊x⌋ ≤ roundHalfEven x := by
  unfold roundHalfEven; split_ifs <;> omega

theorem roundHalfEven_le_floor_add_one (x : ℚ) : roundHalfEven x ≤ ⌊x⌋ + 1 := by
  unfold roundHalfEven; split_ifs <;> omega

theorem roundHalfEven_mono {x y : ℚ} (h : x ≤ y) :
    roundHalfEven x ≤ roundHalfEven y := by
  have hfl : ⌊x⌋ ≤ ⌊y⌋ := Int.floor_le_floor h
  rcases eq_or_lt_of_le hfl with heq | hlt
  · unfold roundHalfEven
    rw [← heq]
    split_ifs <;> first | omega | linarith
  · calc roundHalfEven x ≤ ⌊x⌋ + 1 := roundHalfEven_le_floor_add_one x
      _ ≤ ⌊y⌋ := by omega
      _ ≤ roundHalfEven y := floor_le_roundHalfEven y

theorem pyRound_mono (n : ℕ) {x y : ℚ} (h : x ≤ y) :
    pyRound n x ≤ pyRound n y := by
  unfold pyRound
  have h1 : x * 10 ^ n ≤ y * 10 ^ n := by
    have hp : (0:ℚ) ≤ 10 ^ n := by positivity
    exact mul_le_mul_of_nonneg_right h hp
  have h2 : ((roundHalfEven (x * 10 ^ n) : ℚ)) ≤ (roundHalfEven (y * 10 ^ n) : ℚ) := by
    exact_mod_cast roundHalfEven_mono h1
  have hp : (0:ℚ) < 10 ^ n := by positivity
  gcongr

/-- `calculate_position` from `src/main.py` (lines 68-80): position of
`current` inside the band `[low, high]`, as a percentage clamped to
`[0, 100]` and rounded to one decimal; degenerate bands (`high == low`
or `high == 0`) yield the midpoint convention `50.0`.  The `except`
branch of the Python code is unreachable for numeric inputs and is not
modelled. -/
def calculate_position (current low high : ℚ) : ℚ :=
  if high = low ∨ high = 0 then 50
  else pyRound 1 (max 0 (min 100 ((current - low) / (high - low) * 100)))

example : calculate_position 100 50 150 = 50 := by
  norm_num [calculate_position, pyRound, roundHalfEven, min_def, max_def]
example : calculate_position 7 7 7 = 50 := by norm_num [calculate_position]
example : calculate_position 5 5 0 = 50 := by norm_num [calculate_position]
example : pyRound 1 (5/4) = 12/10 := by norm_num [pyRound, roundHalfEven]

/-- The dictionary returned by `get_stock_data` (lines 49-59), as consumed
by `get_stock_info`.  Since `get_stock_info` reads every key through
`dict.get` with a default, each field is an `Option`; the historical
series is opaque chart-only data. -/
structure StockQuote where
  current_price : Option ℚ
  w52_high : Option ℚ
  w52_low : Option ℚ
  m3_high : Option ℚ
  m3_low : Option ℚ
  m1_high : Option ℚ
  m1_low : Option ℚ
  source : Option String
  hist_data : Option Unit
deriving DecidableEq, Repr

/-- One row of the result table: the `stock_info` dictionary built by
`get_stock_info` (lines 98-149). -/
structure StockRecord where
  Symbol : String
  Company : String
  Current_Price : ℚ
  Week52_High : ℚ
  Week52_Low : ℚ
  Month3_High : ℚ
  Month3_Low : ℚ
  Month1_High : ℚ
  Month1_Low : ℚ
  Data_Source : String
  hist_data : Option Unit
  Price_vs_52W : ℚ
  Price_vs_3M : ℚ
  Price_vs_1M : ℚ
  Current_vs_All : ℚ
deriving DecidableEq, Repr

/-- The fallback dictionary of lines 98-110 (all price fields 0,
`Data_Source = "Unavailable"`); position fields are filled in afterwards,
exactly as in the Python code. -/
def unavailableBase (symbol company_name : String) : StockRecord :=
  { Symbol := symbol
    Company := company_name
    Current_Price := 0
    Week52_High := 0
    Week52_Low := 0
    Month3_High := 0
    Month3_Low := 0
    Month1_High := 0
    Month1_Low := 0
    Data_Source := "Unavailable"
    hist_data := none
    Price_vs_52W := 0
    Price_vs_3M := 0
    Price_vs_1M := 0
    Current_vs_All := 0 }

/-- `get_stock_info` from `src/main.py` (lines 82-160), with the fetch
result passed in as a parameter (`none` models `get_stock_data`
returning `None`).  Mirrors the guard
`if not stock_data or stock_data.get('current_price', 0) == 0`, the
success-path field population with its `dict.get` default multipliers,
and the position/average computation that runs on both branches. -/
def get_stock_info (symbol company_name : String)
    (stock_data : Option StockQuote) : StockRecord :=
  let base : StockRecord :=
    match stock_data with
    | none => unavailableBase symbol company_name
    | some q =>
      if q.current_price.getD 0 = 0 then unavailableBase symbol company_name
      else
        let current_price := q.current_price.getD 0
        { Symbol := symbol
          Company := company_name
          Current_Price := pyRound 2 current_price
          Week52_High := pyRound 2 (q.w52_high.getD (current_price * 1.2))
          Week52_Low := pyRound 2 (q.w52_low.getD (current_price * 0.8))
          Month3_High := pyRound 2 (q.m3_high.getD (current_price * 1.1))
          Month3_Low := pyRound 2 (q.m3_low.getD (current_price * 0.9))
          Month1_High := pyRound 2 (q.m1_high.getD (current_price * 1.05))
          Month1_Low := pyRound 2 (q.m1_low.getD (current_price * 0.95))
          Data_Source := q.source.getD "Unknown"
          hist_data := q.hist_data
          Price_vs_52W := 0
          Price_vs_3M := 0
          Price_vs_1M := 0
          Current_vs_All := 0 }
  let p52 := calculate_position base.Current_Price base.Week52_Low base.Week52_High
  let p3 := calculate_position base.Current_Price base.Month3_Low base.Month3_High
  let p1 := calculate_position base.Current_Price base.Month1_Low base.Month1_High
  { base with
    Price_vs_52W := p52
    Price_vs_3M := p3
    Price_vs_1M := p1
    Current_vs_All := pyRound 1 ((p52 + p3 + p1) / 3) }

/-- The placeholder row appended by the `except` branch of
`analyze_stocks` (lines 173-192): every numeric and position field 0,
`Data_Source = "Error"`. -/
def errorRecord (symbol company_name : String) : StockRecord :=
  { Symbol := symbol
    Company := company_name
    Current_Price := 0
    Week52_High := 0
    Week52_Low := 0
    Month3_High := 0
    Month3_Low := 0
    Month1_High := 0
    Month1_Low := 0
    Data_Source := "Error"
    hist_data := none
    Price_vs_52W := 0
    Price_vs_3M := 0
    Price_vs_1M := 0
    Current_vs_All := 0 }

/-- The outcome of one symbol's iteration in `analyze_stocks`: either
the fetch result handed to `get_stock_info` (`ok`, covering both a
successful quote and `None`), or an uncaught exception raised while
assembling the record (`fault`, the `except` branch). -/
inductive FetchOutcome where
  | ok (q : Option StockQuote)
  | fault
deriving DecidableEq

/-- The body of the `for symbol, company_name in stock_dict.items()`
loop of `analyze_stocks` (lines 169-194); `time.sleep` has no effect on
the result and is not modelled. -/
def analyzeStep (fetch : String → FetchOutcome) (p : String × String) :
    StockRecord :=
  match fetch p.1 with
  | .ok q => get_stock_info p.1 p.2 q
  | .fault => errorRecord p.1 p.2

/-- `analyze_stocks` from `src/main.py` (lines 162-196): iterate the
symbol→company mapping in insertion order (a Python dict, modelled as an
association list) and collect one record per symbol. -/
def analyze_stocks (stock_dict : List (String × String))
    (fetch : String → FetchOutcome) : List StockRecord :=
  stock_dict.map (analyzeStep fetch)

/-- `create_visualizations` from `src/main.py` (lines 198-415), modelled
up to its returned file list: records with `Current_Price > 0` are kept
(line 210); if none remain the function warns and returns the empty list
(lines 212-214); otherwise the chart PDF is produced and its name
returned (the external PDF renderer is modelled as succeeding; the
timestamp in the filename is outside the model). -/
def create_visualizations (df : List StockRecord)
    (fname : String) : List String :=
  let df_valid := df.filter (fun r => 0 < r.Current_Price)
  if df_valid.isEmpty then []
  else [fname ++ "_Charts.pdf"]

theorem pyRound_one_zero : pyRound 1 0 = 0 := by
  norm_num [pyRound, roundHalfEven]

theorem pyRound_one_hundred : pyRound 1 100 = 100 := by
  norm_num [pyRound, roundHalfEven]

theorem clamp_round_nonneg (x : ℚ) : 0 ≤ pyRound 1 (max 0 (min 100 x)) := by
  have h := pyRound_mono 1 (le_max_left 0 (min 100 x))
  rwa [pyRound_one_zero] at h

theorem clamp_round_le_hundred (x : ℚ) :
    pyRound 1 (max 0 (min 100 x)) ≤ 100 := by
  have hle : max 0 (min 100 x) ≤ 100 :=
    max_le (by norm_num) (min_le_left _ _)
  have h := pyRound_mono 1 hle
  rwa [pyRound_one_hundred] at h

/-- C1: whenever `high == low` or `high == 0`, `calculate_position`
returns exactly 50.0, regardless of `current`. -/
theorem calculate_position_degenerate (current low high : ℚ)
    (h : high = low ∨ high = 0) : calculate_position current low high = 50 := by
  rw [calculate_position, if_pos h]

theorem calculate_position_degenerate_witness :
    ((7:ℚ) = 7 ∨ (7:ℚ) = 0) ∧ calculate_position 3 7 7 = 50 :=
  ⟨Or.inl rfl, calculate_position_degenerate 3 7 7 (Or.inl rfl)⟩

/-- C2: for `high ≠ low` and `high ≠ 0`, `calculate_position` is the
band percentage clamped to `[0, 100]` and then rounded to one decimal,
hence always in `[0, 100]`; in particular
`calculate_position 100 50 150 = 50.0`. -/
theorem calculate_position_formula (current low high : ℚ)
    (h1 : high ≠ low) (h2 : high ≠ 0) :
    calculate_position current low high =
      pyRound 1 (max 0 (min 100 ((current - low) / (high - low) * 100))) ∧
    0 ≤ calculate_position current low high ∧
    calculate_position current low high ≤ 100 ∧
    calculate_position 100 50 150 = 50 := by
  have hcond : ¬(high = low ∨ high = 0) := not_or.mpr ⟨h1, h2⟩
  rw [calculate_position, if_neg hcond]
  refine ⟨rfl, clamp_round_nonneg _, clamp_round_le_hundred _, ?_⟩
  norm_num [calculate_position, pyRound, roundHalfEven, min_def, max_def]

theorem calculate_position_formula_witness :
    ((200:ℚ) ≠ 60 ∧ (200:ℚ) ≠ 0) ∧
    (calculate_position 30 60 200 =
      pyRound 1 (max 0 (min 100 ((30 - 60) / (200 - 60) * 100))) ∧
    0 ≤ calculate_position 30 60 200 ∧
    calculate_position 30 60 200 ≤ 100 ∧
    calculate_position 100 50 150 = 50) :=
  ⟨⟨by norm_num, by norm_num⟩,
    calculate_position_formula 30 60 200 (by norm_num) (by norm_num)⟩

/-- C6 as stated is false: for `low = 5`, `high = 0` we have
`high ≠ low`, yet `calculate_position 5 5 0 = 50 ≠ 0` (the `high == 0`
guard fires before the endpoint formula). -/
theorem calculate_position_endpoints_counterexample :
    (0:ℚ) ≠ 5 ∧
    ¬(calculate_position 5 5 0 = 0 ∧ calculate_position 0 5 0 = 100) := by
  constructor
  · norm_num
  · intro h
    have h1 := h.1
    norm_num [calculate_position] at h1

/-- C6 (amended): for `high ≠ low` AND `high ≠ 0`, the position of the
band's endpoints is 0 at `low` and 100 at `high`. -/
theorem calculate_position_endpoints (low high : ℚ)
    (h1 : high ≠ low) (h2 : high ≠ 0) :
    calculate_position low low high = 0 ∧
    calculate_position high low high = 100 := by
  have hcond : ¬(high = low ∨ high = 0) := not_or.mpr ⟨h1, h2⟩
  constructor
  · rw [calculate_position, if_neg hcond]
    have e1 : (low - low) / (high - low) * 100 = 0 := by
      rw [sub_self, zero_div, zero_mul]
    rw [e1, min_eq_right (by norm_num : (0:ℚ) ≤ 100), max_self,
      pyRound_one_zero]
  · rw [calculate_position, if_neg hcond]
    have e2 : (high - low) / (high - low) * 100 = 100 := by
      rw [div_self (sub_ne_zero.mpr h1), one_mul]
    rw [e2, min_self, max_eq_right (by norm_num : (0:ℚ) ≤ 100),
      pyRound_one_hundred]

theorem calculate_position_endpoints_witness :
    ((150:ℚ) ≠ 50 ∧ (150:ℚ) ≠ 0) ∧
    (calculate_position 50 50 150 = 0 ∧ calculate_position 150 50 150 = 100) :=
  ⟨⟨by norm_num, by norm_num⟩,
    calculate_position_endpoints 50 150 (by norm_num) (by norm_num)⟩

/-- C10: for a fixed band `low < high` with `high ≠ 0`,
`calculate_position` is monotone nondecreasing in `current`. -/
theorem calculate_position_mono (low high c1 c2 : ℚ) (hlh : low < high)
    (hh : high ≠ 0) (hc : c1 ≤ c2) :
    calculate_position c1 low high ≤ calculate_position c2 low high := by
  have hne : high ≠ low := ne_of_gt hlh
  have hcond : ¬(high = low ∨ high = 0) := not_or.mpr ⟨hne, hh⟩
  rw [calculate_position, calculate_position, if_neg hcond, if_neg hcond]
  apply pyRound_mono
  have hpos : (0:ℚ) < high - low := sub_pos.mpr hlh
  gcongr

theorem calculate_position_mono_witness :
    ((0:ℚ) < 100 ∧ (100:ℚ) ≠ 0 ∧ (20:ℚ) ≤ 30) ∧
    calculate_position 20 0 100 ≤ calculate_position 30 0 100 :=
  ⟨⟨by norm_num, by norm_num, by norm_num⟩,
    calculate_position_mono 0 100 20 30 (by norm_num) (by norm_num)
      (by norm_num)⟩

theorem pyRound_one_fifty : pyRound 1 50 = 50 := by
  norm_num [pyRound, roundHalfEven]

/-- C3: when the quote is absent or carries `current_price = 0`, the
assembled record has all seven numeric price fields 0,
`Data_Source = "Unavailable"`, and the three positions and their
average all exactly 50.0 (the zero band triggers the degenerate branch
of `calculate_position`). -/
theorem get_stock_info_unavailable (symbol company : String)
    (sd : Option StockQuote)
    (h : sd = none ∨ ∃ q, sd = some q ∧ q.current_price.getD 0 = 0) :
    (get_stock_info symbol company sd).Current_Price = 0 ∧
    (get_stock_info symbol company sd).Week52_High = 0 ∧
    (get_stock_info symbol company sd).Week52_Low = 0 ∧
    (get_stock_info symbol company sd).Month3_High = 0 ∧
    (get_stock_info symbol company sd).Month3_Low = 0 ∧
    (get_stock_info symbol company sd).Month1_High = 0 ∧
    (get_stock_info symbol company sd).Month1_Low = 0 ∧
    (get_stock_info symbol company sd).Data_Source = "Unavailable" ∧
    (get_stock_info symbol company sd).Price_vs_52W = 50 ∧
    (get_stock_info symbol company sd).Price_vs_3M = 50 ∧
    (get_stock_info symbol company sd).Price_vs_1M = 50 ∧
    (get_stock_info symbol company sd).Current_vs_All = 50 := by
  rcases h with h | ⟨q, hq, hcp⟩
  · subst h
    norm_num [get_stock_info, unavailableBase, calculate_position,
      pyRound_one_fifty]
  · subst hq
    norm_num [get_stock_info, unavailableBase, calculate_position, hcp,
      pyRound_one_fifty]

theorem get_stock_info_unavailable_witness :
    ((none : Option StockQuote) = none ∨
      ∃ q, (none : Option StockQuote) = some q ∧ q.current_price.getD 0 = 0) ∧
    ((get_stock_info "IDEA" "Vodafone Idea Limited" none).Current_Price = 0 ∧
    (get_stock_info "IDEA" "Vodafone Idea Limited" none).Week52_High = 0 ∧
    (get_stock_info "IDEA" "Vodafone Idea Limited" none).Week52_Low = 0 ∧
    (get_stock_info "IDEA" "Vodafone Idea Limited" none).Month3_High = 0 ∧
    (get_stock_info "IDEA" "Vodafone Idea Limited" none).Month3_Low = 0 ∧
    (get_stock_info "IDEA" "Vodafone Idea Limited" none).Month1_High = 0 ∧
    (get_stock_info "IDEA" "Vodafone Idea Limited" none).Month1_Low = 0 ∧
    (get_stock_info "IDEA" "Vodafone Idea Limited" none).Data_Source
      = "Unavailable" ∧
    (get_stock_info "IDEA" "Vodafone Idea Limited" none).Price_vs_52W = 50 ∧
    (get_stock_info "IDEA" "Vodafone Idea Limited" none).Price_vs_3M = 50 ∧
    (get_stock_info "IDEA" "Vodafone Idea Limited" none).Price_vs_1M = 50 ∧
    (get_stock_info "IDEA" "Vodafone Idea Limited" none).Current_vs_All = 50) :=
  ⟨Or.inl rfl,
    get_stock_info_unavailable "IDEA" "Vodafone Idea Limited" none (Or.inl rfl)⟩

/-- C8: on every assembly path of `get_stock_info` (success and
Unavailable alike), `Current_vs_All` is the arithmetic mean of the
three position fields of the record, rounded to one decimal. -/
theorem get_stock_info_average (symbol company : String)
    (sd : Option StockQuote) :
    (get_stock_info symbol company sd).Current_vs_All =
      pyRound 1 (((get_stock_info symbol company sd).Price_vs_52W +
        (get_stock_info symbol company sd).Price_vs_3M +
        (get_stock_info symbol company sd).Price_vs_1M) / 3) := rfl

/-- C7: on the success path (quote present, `current_price ≠ 0`), every
high/low field is taken from the quote when the key is present,
synthesized from `current_price` with the fixed multipliers 1.2, 0.8,
1.1, 0.9, 1.05, 0.95 when absent, and every numeric price field is
rounded to two decimals. -/
theorem get_stock_info_success (symbol company : String) (q : StockQuote)
    (cp : ℚ) (hcp : q.current_price = some cp) (hne : cp ≠ 0) :
    (get_stock_info symbol company (some q)).Current_Price = pyRound 2 cp ∧
    (∀ v, q.w52_high = some v →
      (get_stock_info symbol company (some q)).Week52_High = pyRound 2 v) ∧
    (q.w52_high = none →
      (get_stock_info symbol company (some q)).Week52_High
        = pyRound 2 (cp * 1.2)) ∧
    (∀ v, q.w52_low = some v →
      (get_stock_info symbol company (some q)).Week52_Low = pyRound 2 v) ∧
    (q.w52_low = none →
      (get_stock_info symbol company (some q)).Week52_Low
        = pyRound 2 (cp * 0.8)) ∧
    (∀ v, q.m3_high = some v →
      (get_stock_info symbol company (some q)).Month3_High = pyRound 2 v) ∧
    (q.m3_high = none →
      (get_stock_info symbol company (some q)).Month3_High
        = pyRound 2 (cp * 1.1)) ∧
    (∀ v, q.m3_low = some v →
      (get_stock_info symbol company (some q)).Month3_Low = pyRound 2 v) ∧
    (q.m3_low = none →
      (get_stock_info symbol company (some q)).Month3_Low
        = pyRound 2 (cp * 0.9)) ∧
    (∀ v, q.m1_high = some v →
      (get_stock_info symbol company (some q)).Month1_High = pyRound 2 v) ∧
    (q.m1_high = none →
      (get_stock_info symbol company (some q)).Month1_High
        = pyRound 2 (cp * 1.05)) ∧
    (∀ v, q.m1_low = some v →
      (get_stock_info symbol company (some q)).Month1_Low = pyRound 2 v) ∧
    (q.m1_low = none →
      (get_stock_info symbol company (some q)).Month1_Low
        = pyRound 2 (cp * 0.95)) := by
  have hg : q.current_price.getD 0 = cp := by rw [hcp]; rfl
  refine ⟨by simp [get_stock_info, hg, hne], ?_, ?_, ?_, ?_, ?_, ?_, ?_, ?_,
    ?_, ?_, ?_, ?_⟩ <;>
    first
      | (intro v hv; simp [get_stock_info, hg, hne, hv])
      | (intro hnone; simp [get_stock_info, hg, hne, hnone])

/-- A concrete quote with mixed present/absent high-low keys, used to
instantiate the success-path theorem. -/
def mixedQuote : StockQuote :=
  { current_price := some 100
    w52_high := some 150
    w52_low := none
    m3_high := some 120
    m3_low := none
    m1_high := some 110
    m1_low := none
    source := some "Yahoo Finance (yfinance)"
    hist_data := none }

theorem get_stock_info_success_witness :
    (mixedQuote.current_price = some 100 ∧ (100:ℚ) ≠ 0) ∧
    ((get_stock_info "RELIANCE" "Reliance Industries"
        (some mixedQuote)).Current_Price = pyRound 2 100 ∧
    (∀ v, mixedQuote.w52_high = some v →
      (get_stock_info "RELIANCE" "Reliance Industries"
        (some mixedQuote)).Week52_High = pyRound 2 v) ∧
    (mixedQuote.w52_high = none →
      (get_stock_info "RELIANCE" "Reliance Industries"
        (some mixedQuote)).Week52_High = pyRound 2 (100 * 1.2)) ∧
    (∀ v, mixedQuote.w52_low = some v →
      (get_stock_info "RELIANCE" "Reliance Industries"
        (some mixedQuote)).Week52_Low = pyRound 2 v) ∧
    (mixedQuote.w52_low = none →
      (get_stock_info "RELIANCE" "Reliance Industries"
        (some mixedQuote)).Week52_Low = pyRound 2 (100 * 0.8)) ∧
    (∀ v, mixedQuote.m3_high = some v →
      (get_stock_info "RELIANCE" "Reliance Industries"
        (some mixedQuote)).Month3_High = pyRound 2 v) ∧
    (mixedQuote.m3_high = none →
      (get_stock_info "RELIANCE" "Reliance Industries"
        (some mixedQuote)).Month3_High = pyRound 2 (100 * 1.1)) ∧
    (∀ v, mixedQuote.m3_low = some v →
      (get_stock_info "RELIANCE" "Reliance Industries"
        (some mixedQuote)).Month3_Low = pyRound 2 v) ∧
    (mixedQuote.m3_low = none →
      (get_stock_info "RELIANCE" "Reliance Industries"
        (some mixedQuote)).Month3_Low = pyRound 2 (100 * 0.9)) ∧
    (∀ v, mixedQuote.m1_high = some v →
      (get_stock_info "RELIANCE" "Reliance Industries"
        (some mixedQuote)).Month1_High = pyRound 2 v) ∧
    (mixedQuote.m1_high = none →
      (get_stock_info "RELIANCE" "Reliance Industries"
        (some mixedQuote)).Month1_High = pyRound 2 (100 * 1.05)) ∧
    (∀ v, mixedQuote.m1_low = some v →
      (get_stock_info "RELIANCE" "Reliance Industries"
        (some mixedQuote)).Month1_Low = pyRound 2 v) ∧
    (mixedQuote.m1_low = none →
      (get_stock_info "RELIANCE" "Reliance Industries"
        (some mixedQuote)).Month1_Low = pyRound 2 (100 * 0.95))) :=
  ⟨⟨rfl, by norm_num⟩,
    get_stock_info_success "RELIANCE" "Reliance Industries" mixedQuote 100
      rfl (by norm_num)⟩

theorem get_stock_info_Symbol (s c : String) (sd : Option StockQuote) :
    (get_stock_info s c sd).Symbol = s := by
  cases sd with
  | none => simp [get_stock_info, unavailableBase]
  | some q =>
    by_cases hq : q.current_price.getD 0 = 0 <;>
      simp [get_stock_info, unavailableBase, hq]

/-- C4: if assembling one symbol's record raises, the batch driver
substitutes the all-zero `Data_Source = "Error"` placeholder at that
symbol's slot and still emits one record per configured symbol. -/
theorem analyze_stocks_fault (stocks : List (String × String))
    (fetch : String → FetchOutcome) (i : ℕ) (sym name : String)
    (hs : stocks[i]? = some (sym, name))
    (hf : fetch sym = FetchOutcome.fault) :
    (analyze_stocks stocks fetch).length = stocks.length ∧
    (analyze_stocks stocks fetch)[i]? = some (errorRecord sym name) ∧
    (errorRecord sym name).Current_Price = 0 ∧
    (errorRecord sym name).Week52_High = 0 ∧
    (errorRecord sym name).Week52_Low = 0 ∧
    (errorRecord sym name).Month3_High = 0 ∧
    (errorRecord sym name).Month3_Low = 0 ∧
    (errorRecord sym name).Month1_High = 0 ∧
    (errorRecord sym name).Month1_Low = 0 ∧
    (errorRecord sym name).Price_vs_52W = 0 ∧
    (errorRecord sym name).Price_vs_3M = 0 ∧
    (errorRecord sym name).Price_vs_1M = 0 ∧
    (errorRecord sym name).Current_vs_All = 0 ∧
    (errorRecord sym name).Data_Source = "Error" ∧
    (∀ (j : ℕ) (sym2 name2 : String), stocks[j]? = some (sym2, name2) →
      (analyze_stocks stocks fetch)[j]?
        = some (analyzeStep fetch (sym2, name2))) := by
  refine ⟨by simp [analyze_stocks], ?_, rfl, rfl, rfl, rfl, rfl, rfl, rfl,
    rfl, rfl, rfl, rfl, rfl, ?_⟩
  · rw [analyze_stocks, List.getElem?_map, hs]
    simp [analyzeStep, hf]
  · intro j sym2 name2 hj
    rw [analyze_stocks, List.getElem?_map, hj]
    rfl

theorem analyze_stocks_fault_witness :
    (([("BAJAJ-AUTO", "Bajaj Auto Limited")] :
        List (String × String))[0]? = some ("BAJAJ-AUTO", "Bajaj Auto Limited") ∧
      (fun _ : String => FetchOutcome.fault) "BAJAJ-AUTO"
        = FetchOutcome.fault) ∧
    ((analyze_stocks [("BAJAJ-AUTO", "Bajaj Auto Limited")]
        (fun _ => FetchOutcome.fault)).length
      = ([("BAJAJ-AUTO", "Bajaj Auto Limited")] :
          List (String × String)).length ∧
    (analyze_stocks [("BAJAJ-AUTO", "Bajaj Auto Limited")]
        (fun _ => FetchOutcome.fault))[0]?
      = some (errorRecord "BAJAJ-AUTO" "Bajaj Auto Limited") ∧
    (errorRecord "BAJAJ-AUTO" "Bajaj Auto Limited").Current_Price = 0 ∧
    (errorRecord "BAJAJ-AUTO" "Bajaj Auto Limited").Week52_High = 0 ∧
    (errorRecord "BAJAJ-AUTO" "Bajaj Auto Limited").Week52_Low = 0 ∧
    (errorRecord "BAJAJ-AUTO" "Bajaj Auto Limited").Month3_High = 0 ∧
    (errorRecord "BAJAJ-AUTO" "Bajaj Auto Limited").Month3_Low = 0 ∧
    (errorRecord "BAJAJ-AUTO" "Bajaj Auto Limited").Month1_High = 0 ∧
    (errorRecord "BAJAJ-AUTO" "Bajaj Auto Limited").Month1_Low = 0 ∧
    (errorRecord "BAJAJ-AUTO" "Bajaj Auto Limited").Price_vs_52W = 0 ∧
    (errorRecord "BAJAJ-AUTO" "Bajaj Auto Limited").Price_vs_3M = 0 ∧
    (errorRecord "BAJAJ-AUTO" "Bajaj Auto Limited").Price_vs_1M = 0 ∧
    (errorRecord "BAJAJ-AUTO" "Bajaj Auto Limited").Current_vs_All = 0 ∧
    (errorRecord "BAJAJ-AUTO" "Bajaj Auto Limited").Data_Source = "Error" ∧
    (∀ (j : ℕ) (sym2 name2 : String),
      ([("BAJAJ-AUTO", "Bajaj Auto Limited")] :
        List (String × String))[j]? = some (sym2, name2) →
      (analyze_stocks [("BAJAJ-AUTO", "Bajaj Auto Limited")]
          (fun _ => FetchOutcome.fault))[j]?
        = some (analyzeStep (fun _ => FetchOutcome.fault) (sym2, name2)))) :=
  ⟨⟨rfl, rfl⟩,
    analyze_stocks_fault [("BAJAJ-AUTO", "Bajaj Auto Limited")]
      (fun _ => FetchOutcome.fault) 0 "BAJAJ-AUTO" "Bajaj Auto Limited"
      rfl rfl⟩

/-- C5: for every symbol→company mapping and every mix of succeeding,
unavailable and faulting symbols, the batch holds exactly one record
per configured symbol, in the mapping's iteration order. -/
theorem analyze_stocks_one_per_symbol (stocks : List (String × String))
    (fetch : String → FetchOutcome) :
    (analyze_stocks stocks fetch).length = stocks.length ∧
    (analyze_stocks stocks fetch).map StockRecord.Symbol
      = stocks.map Prod.fst := by
  refine ⟨by simp [analyze_stocks], ?_⟩
  rw [analyze_stocks, List.map_map]
  apply List.map_congr_left
  intro p _
  cases hf : fetch p.1 with
  | ok q => simp [analyzeStep, hf, get_stock_info_Symbol]
  | fault => simp [analyzeStep, hf, errorRecord]

/-- A quote whose current price is negative: it passes the
`current_price == 0` guard, so the assembled record carries a nonzero
(negative) `Current_Price`, yet the chart stage's `> 0` filter drops
it. -/
def negQuote : StockQuote :=
  { current_price := some (-1)
    w52_high := none
    w52_low := none
    m3_high := none
    m3_low := none
    m1_high := none
    m1_low := none
    source := none
    hist_data := none }

/-- A one-symbol batch built from `negQuote` through the batch driver. -/
def negBatch : List StockRecord :=
  analyze_stocks [("NEG", "Negative Co")] (fun _ => FetchOutcome.ok (some negQuote))

theorem negBatch_current_price :
    (get_stock_info "NEG" "Negative Co" (some negQuote)).Current_Price = -1 := by
  norm_num [get_stock_info, negQuote, pyRound, roundHalfEven]

/-- C9 as stated is false: `negBatch` contains a record with nonzero
`Current_Price` (namely -1), yet the chart stage still returns the
empty file list, because its filter keeps only records with
`Current_Price > 0`, not `≠ 0`. -/
theorem create_visualizations_counterexample :
    ¬ ((create_visualizations negBatch "Stock_Analysis" = []) ↔
      (∀ r ∈ negBatch, r.Current_Price = 0)) := by
  intro h
  have h1 : create_visualizations negBatch "Stock_Analysis" = [] := by
    norm_num [create_visualizations, negBatch, analyze_stocks, analyzeStep,
      List.filter, negBatch_current_price]
  have h2 := h.mp h1 (get_stock_info "NEG" "Negative Co" (some negQuote))
    (by simp [negBatch, analyze_stocks, analyzeStep])
  rw [negBatch_current_price] at h2
  norm_num at h2

/-- C9 (amended): the chart-export stage returns the empty file list if
and only if no record in the batch has a strictly positive
`Current_Price` (the code filters on `Current_Price > 0`, so records
with zero or negative price count as "no usable data"). -/
theorem create_visualizations_skip (df : List StockRecord) (pre : String) :
    create_visualizations df pre = [] ↔
      ∀ r ∈ df, ¬ 0 < r.Current_Price := by
  simp only [create_visualizations]
  split_ifs with h
  · rw [List.isEmpty_iff, List.filter_eq_nil_iff] at h
    simp only [true_iff, eq_self_iff_true]
    intro r hr
    simpa using h r hr
  · rw [List.isEmpty_iff, List.filter_eq_nil_iff] at h
    push_neg at h
    obtain ⟨r, hr, hpr⟩ := h
    constructor
    · intro hcontra
      exact absurd hcontra (by simp)
    · intro hall
      exact absurd (by simpa using hpr) (hall r hr)
